import Mathlib

/-!
Shallow embedding of the Book-library-manager FastAPI application
(`main.py`, `models.py`, `schemas.py`, `database.py`) and proofs about
its authentication, registration, and book-catalog operations.

Conventions of the embedding:
* SQLAlchemy rows become Lean structures; the database session becomes an
  explicit `Store` (list of rows plus surrogate-key counters) threaded
  through each handler.
* `query(...).filter(...).first()` becomes `List.find?`; mutating the row
  object returned by `.first()` becomes `updateFirst`; `db.delete(row)`
  becomes `List.filter` on the primary key.
* Password hashing (passlib bcrypt) is an external collaborator: it is
  modelled by an injective tagging function, keeping only its contract
  `verify p (hash p) = true` and fail-closed behaviour.
* JWTs (python-jose) are modelled as a signed record: `jwt_decode` checks
  the signing key and the `exp` claim exactly as jose does
  (expired iff `exp < now`, in whole seconds).
* Time is an integer count of epoch seconds.
* FastAPI responses become the inductive `Response`; template rendering
  keeps only the data the handlers put into the context (message, books,
  users), never the HTML.
-/

namespace BookLibrary

/-! ## Data model (`db/models.py`) -/

/-- `UserModel` row: `users(id, author, username UNIQUE, password,
raw_password, client_id, client_secret)`. Nullable columns are `Option`. -/
structure UserModel where
  id : Nat
  author : Option String
  username : String
  password : String
  raw_password : Option String
  client_id : Option String
  client_secret : Option String
deriving Repr, DecidableEq

/-- `BookModel` row: `books(id, title, author, pages)`. -/
structure BookModel where
  id : Nat
  title : String
  author : String
  pages : Int
deriving Repr, DecidableEq

/-- The persistent store: the two tables plus the next surrogate ids. -/
structure Store where
  users : List UserModel
  books : List BookModel
  nextUserId : Nat := 1
  nextBookId : Nat := 1
deriving Repr, DecidableEq

/-! ## Credential hasher (`pwd_context`, external collaborator) -/

/-- Model of `pwd_context.hash`: an injective one-way tag. -/
def pwd_context_hash (plaintext : String) : String :=
  "bcrypt$" ++ plaintext

/-- Model of `pwd_context.verify`: succeeds exactly on the hash of the
submitted plaintext; anything else (including malformed hashes) fails
closed. -/
def pwd_context_verify (plaintext stored : String) : Bool :=
  pwd_context_hash plaintext == stored

/-! ## Token issuer / verifier (`jose.jwt`, config from `db/database.py`) -/

def SECRET_KEY : String := "your_secret_key"

def ACCESS_TOKEN_EXPIRE_MINUTES : Int := 30

/-- The decoded JWT payload: optional `sub` claim and `exp` epoch seconds. -/
structure JwtPayload where
  sub : Option String
  exp : Int
deriving Repr, DecidableEq

/-- A signed token: payload plus the key it was signed with. -/
structure Jwt where
  payload : JwtPayload
  signedWith : String
deriving Repr, DecidableEq

/-- `jwt.encode(to_encode, key, algorithm)`. -/
def jwt_encode (payload : JwtPayload) (key : String) : Jwt :=
  ⟨payload, key⟩

/-- `jwt.decode(token, key, algorithms)` at time `now`: fails when the
signature does not verify or the token is expired. python-jose treats the
token as expired iff `exp < now` (leeway 0). -/
def jwt_decode (token : Jwt) (key : String) (now : Int) :
    Except String JwtPayload :=
  if token.signedWith ≠ key then .error "signature verification failed"
  else if token.payload.exp < now then .error "token expired"
  else .ok token.payload

/-- `create_access_token(data, expires_delta)` for `data = {"sub": sub}`:
the default delta is `timedelta(minutes=ACCESS_TOKEN_EXPIRE_MINUTES)`. -/
def create_access_token (sub : String) (now : Int)
    (expires_delta : Int := ACCESS_TOKEN_EXPIRE_MINUTES * 60) : Jwt :=
  jwt_encode ⟨some sub, now + expires_delta⟩ SECRET_KEY

/-! ## Requests and responses -/

/-- The parts of the inbound request the auth gate could read: the
`access_token` cookie and the `Authorization` header (each either absent
or carrying a token). -/
structure Request where
  cookie_access_token : Option Jwt
  header_authorization : Option Jwt
deriving Repr, DecidableEq

/-- Handler outcomes, keeping only the data each handler computes:
redirects with status code, template renders with the context the handler
passes (message, book list, user list), JSON bodies, and HTTP errors. -/
inductive Response where
  | redirect (url : String) (code : Nat)
  | template (name : String) (msg : Option String)
      (books : List BookModel) (users : List UserModel)
  | jsonMessage (message : String)
  | jsonError (error : String)
  | httpError (code : Nat) (detail : String)
deriving Repr, DecidableEq

/-! ## Auth gate (`get_current_user_from_cookie`) -/

/-- `get_current_user_from_cookie`: reads the `access_token` cookie
(nothing else), decodes it, requires a `sub` claim, and looks the username
up in the store; every failure is a 401. -/
def get_current_user_from_cookie (req : Request) (store : Store)
    (now : Int) : Except Nat UserModel :=
  match req.cookie_access_token with
  | none => .error 401
  | some token =>
    match jwt_decode token SECRET_KEY now with
    | .error _ => .error 401
    | .ok payload =>
      match payload.sub with
      | none => .error 401
      | some username =>
        match store.users.find? (fun u => u.username == username) with
        | none => .error 401
        | some user => .ok user

/-! ## Login (`POST /token`, `login_for_access_token`) -/

/-- Result of the login handler: the response plus the `access_token`
cookie it sets, when any. -/
structure LoginResult where
  response : Response
  set_cookie : Option Jwt
deriving Repr, DecidableEq

/-- `login_for_access_token`: looks the user up by exact username, then
verifies the password, then requires the submitted `author` form field to
equal the stored `author` column; on success issues a token with
`sub = user.username` and sets it as the cookie. -/
def login_for_access_token (username password author : String)
    (store : Store) (now : Int) : LoginResult :=
  match store.users.find? (fun u => u.username == username) with
  | none => ⟨.redirect "/login?msg=Невірні%20дані" 303, none⟩
  | some user =>
    if ¬ pwd_context_verify password user.password then
      ⟨.redirect "/login?msg=Невірні%20дані" 303, none⟩
    else if user.author ≠ some author then
      ⟨.redirect "/login?msg=Автор%20не%20співпадає" 303, none⟩
    else
      let access_token := create_access_token user.username now
      ⟨.redirect ("/menu/" ++ author) 303, some access_token⟩

/-! ## Registration (`POST /register`, `register_user`) -/

/-- `register_user`: rejects when a row with the exact same username
exists (regardless of every other field), otherwise inserts a new row with
the hashed password (and, as the source does, the raw password). -/
def register_user (author username password : String)
    (client_id client_secret : Option String) (store : Store) :
    Response × Store :=
  match store.users.find? (fun u => u.username == username) with
  | some _ =>
    (.redirect ("/register?msg=Користувач%20" ++ username ++
        "%20вже%20існує") 303, store)
  | none =>
    let hashed_password := pwd_context_hash password
    let new_user : UserModel :=
      { id := store.nextUserId
        author := some author
        username := username
        password := hashed_password
        raw_password := some password
        client_id := client_id
        client_secret := client_secret }
    (.redirect "/login?msg=Користувача%20успішно%20створено" 303,
      { store with
          users := store.users ++ [new_user]
          nextUserId := store.nextUserId + 1 })

/-! ## Small helpers shared by the handlers -/

/-- Mutating the row object returned by `.first()`: apply `f` to the first
element satisfying `p`, leave the rest unchanged. -/
def updateFirst {α : Type} (p : α → Bool) (f : α → α) : List α → List α
  | [] => []
  | x :: xs => if p x then f x :: xs else x :: updateFirst p f xs

/-- Model of Python `str.lower()` (and SQL `lower()`): lower-case every
character. Defined by structural recursion over the character list so
that concrete instances evaluate. -/
def pyLower (s : String) : String :=
  ⟨s.data.map Char.toLower⟩

/-- Model of Python `str.strip()`: drop leading and trailing whitespace.
Defined by structural recursion over the character list so that concrete
instances evaluate. -/
def pyStrip (s : String) : String :=
  ⟨((s.data.dropWhile Char.isWhitespace).reverse.dropWhile
      Char.isWhitespace).reverse⟩

/-- Python truthiness of an optional string (`None` and `""` are falsy). -/
def pyTruthy : Option String → Bool
  | none => false
  | some s => ¬ (s == "")

/-- How Python renders an optional column into an f-string. -/
def pyStr : Option String → String
  | none => "None"
  | some s => s

/-! ## Self-service account deletion -/

/-- `delete_user_form` (`POST /register-delete`): match by username and
verify the password; on failure redirect with a not-found message and
leave the store unchanged; otherwise hard-delete the row. -/
def delete_user_form (username password : String) (store : Store) :
    Response × Store :=
  match store.users.find? (fun u => u.username == username) with
  | none => (.redirect "/register-delete?msg=Акаунт%20не%20знайдено" 303, store)
  | some user =>
    if ¬ pwd_context_verify password user.password then
      (.redirect "/register-delete?msg=Акаунт%20не%20знайдено" 303, store)
    else
      (.redirect "/login?msg=Акаунт%20успішно%20видалено" 303,
        { store with users := store.users.filter (fun u => u.id ≠ user.id) })

/-- `delete_register_post` (`POST /delete-register/{author}`): match by
username (the path parameter) only, no password check. -/
def delete_register_post (author : String) (store : Store) :
    Response × Store :=
  match store.users.find? (fun u => u.username == author) with
  | none =>
    (.redirect ("/delete-register/" ++ author ++
        "?msg=Користувача не знайдено") 303, store)
  | some user =>
    (.redirect "/login" 303,
      { store with users := store.users.filter (fun u => u.id ≠ user.id) })

/-! ## Self-service rename (`POST /change-name/{author}`) -/

/-- The in-place row mutation of `post_change_name`: overwrite username,
password, raw password, and (when the submitted value is truthy) author,
on the row object found by id. -/
def change_name_update (new_user new_password : String)
    (new_author : Option String) (u : UserModel) : UserModel :=
  { u with
      author := if pyTruthy new_author then new_author else u.author
      username := new_user
      password := pwd_context_hash new_password
      raw_password := some new_password }

/-- The commit half of `post_change_name`: the in-place row update, the
fresh token for the new username, and the redirect. -/
def post_change_name_commit (new_user new_password : String)
    (new_author : Option String) (store : Store) (current_user : UserModel)
    (now : Int) : Response × Option Jwt × Store :=
  let users := updateFirst (fun u => u.id == current_user.id)
    (change_name_update new_user new_password new_author) store.users
  let newAuthor :=
    if pyTruthy new_author then new_author else current_user.author
  let access_token := create_access_token new_user now
  (.redirect ("/setting-user/" ++ pyStr newAuthor) 303,
    some access_token, { store with users := users })

/-- `post_change_name`: locate the authenticated user's row by id, reject
a new username already taken by a different row, then overwrite username,
password (and author when the submitted value is truthy) and re-issue a
token for the new username. Returns (response, cookie set, store). -/
def post_change_name (new_user new_password : String)
    (new_author : Option String) (store : Store) (current_user : UserModel)
    (now : Int) : Response × Option Jwt × Store :=
  match store.users.find? (fun u => u.id == current_user.id) with
  | none =>
    (.template "change-name.html" (some "Користувача не знайдено.") [] [],
      none, store)
  | some _ =>
    match store.users.find? (fun u => u.username == new_user) with
    | some existing_user =>
      if existing_user.id ≠ current_user.id then
        (.template "change-name.html" (some "Ім’я користувача вже зайнято.")
          [] [], none, store)
      else
        post_change_name_commit new_user new_password new_author store
          current_user now
    | none =>
      post_change_name_commit new_user new_password new_author store
        current_user now

/-! ## Book catalog: HTML-form handlers -/

/-- `update_book_form` (`POST /update-book/{author}`): locate by the old
title alone, overwrite title and pages; no validation of the new pages. -/
def update_book_form (author old_title new_title : String) (new_pages : Int)
    (store : Store) (current_user : UserModel) : Response × Store :=
  match store.books.find? (fun b => b.title == old_title) with
  | none => (.jsonError "Book not found", store)
  | some _ =>
    (.redirect ("/menu/" ++ author) 303,
      { store with
          books := updateFirst (fun b => b.title == old_title)
            (fun b => { b with title := new_title, pages := new_pages })
            store.books })

/-- `delete_book_form` (`POST /delete-book/{author}`): the path author must
equal the authenticated username, then locate case-insensitively by
(author, title); absent means a not-found render, present means delete. -/
def delete_book_form (author title : String) (store : Store)
    (current_user : UserModel) : Response × Store :=
  if author ≠ current_user.username then
    (.redirect "/login" 303, store)
  else
    match store.books.find? (fun b =>
        pyLower b.author == pyLower author &&
        pyLower b.title == pyLower title) with
    | none =>
      (.template "delete-book.html" (some "Книгу не знайдено") [] [], store)
    | some book =>
      (.redirect ("/menu/" ++ author) 303,
        { store with books := store.books.filter (fun b => b.id ≠ book.id) })

/-! ## Book catalog: JSON API (`schemas.Book` + `POST /books/{author}`,
`PUT /books/`, `GET /books/{author}`) -/

/-- The `Book` pydantic schema constraints: `author` length in [3,30],
`title` length ≥ 1, `pages > 10`. FastAPI enforces them on every endpoint
whose body is a `Book` (create and update alike), before the handler. -/
def Book_valid (author title : String) (pages : Int) : Bool :=
  3 ≤ author.length && author.length ≤ 30 && 1 ≤ title.length && 10 < pages

/-- `create_book` (`POST /books/{author}`): after the auth dependency and
the `Book` schema validation, reject an exact `(title, author)` duplicate
with a 400, otherwise insert the row. -/
def create_book (auth : Except Nat UserModel) (author title : String)
    (pages : Int) (store : Store) : Response × Store :=
  match auth with
  | .error code => (.httpError code "Не авторизований", store)
  | .ok _ =>
    if ¬ Book_valid author title pages then
      (.httpError 422 "Unprocessable Entity", store)
    else
      match store.books.find? (fun b =>
          b.title == title && b.author == author) with
      | some _ => (.httpError 400 "Книга вже існує", store)
      | none =>
        (.jsonMessage "Книгу додано",
          { store with
              books := store.books ++
                [{ id := store.nextBookId, title := title, author := author,
                   pages := pages }]
              nextBookId := store.nextBookId + 1 })

/-- `update_book` (`PUT /books/`): same auth dependency and same `Book`
schema validation as create; locate by exact `(title, author)`, 404 when
absent, otherwise overwrite only `pages`. -/
def update_book (auth : Except Nat UserModel) (author title : String)
    (pages : Int) (store : Store) : Response × Store :=
  match auth with
  | .error code => (.httpError code "Не авторизований", store)
  | .ok _ =>
    if ¬ Book_valid author title pages then
      (.httpError 422 "Unprocessable Entity", store)
    else
      match store.books.find? (fun b =>
          b.title == title && b.author == author) with
      | none => (.httpError 404 "Книгу не знайдено", store)
      | some _ =>
        (.jsonMessage "Книгу оновлено",
          { store with
              books := updateFirst
                (fun b => b.title == title && b.author == author)
                (fun b => { b with pages := pages }) store.books })

/-- `get_books_by_author` (`GET /books/{author}`): render the template with
exactly the books whose author equals the path parameter; no 404 branch
exists, the page is rendered even when the list is empty. -/
def get_books_by_author (author : String) (store : Store) : Response :=
  .template "books-author.html" none
    (store.books.filter (fun b => b.author == author)) []

/-! ## Admin routes -/

/-- The role check used by every admin GET page:
`current_user.username.strip().lower() == "admin"`. -/
def is_admin (u : UserModel) : Bool :=
  pyLower (pyStrip u.username) == "admin"

/-- `admin_error_get` (`GET /admin-error`): the access-denied page for
non-admins, redirecting admins back to the panel. -/
def admin_error_get (current_user : UserModel) : Response :=
  if ¬ is_admin current_user then
    .template "admin-error.html"
      (some "Вибачте, але ця функція доступна лише для адміністратора.")
      [] []
  else .redirect "/admin" 303

/-- `admin_panel` (`GET /admin`): non-admins are redirected away. -/
def admin_panel (current_user : UserModel) : Response :=
  if ¬ is_admin current_user then .redirect "/admin-error" 307
  else .template "admin.html" none [] []

/-- `create_book_get` (`GET /admin-create-book`): admin-gated form page. -/
def create_book_get (msg : Option String) (current_user : UserModel) :
    Response :=
  if ¬ is_admin current_user then .redirect "/admin-error" 307
  else .template "admin-create-book.html" msg [] []

/-- `create_book_post` (`POST /admin-create-book`): duplicate check is
case-insensitive on trimmed title and author; note that no admin check is
performed on this handler. -/
def create_book_post (title author : String) (pages : Int) (store : Store)
    (current_user : UserModel) : Response × Store :=
  match store.books.find? (fun b =>
      pyLower b.title == pyLower (pyStrip title) &&
      pyLower b.author == pyLower (pyStrip author)) with
  | some _ =>
    (.template "admin-create-book.html" (some "Книга вже існує") [] [], store)
  | none =>
    (.redirect "/admin" 303,
      { store with
          books := store.books ++
            [{ id := store.nextBookId, title := pyStrip title,
               author := pyStrip author, pages := pages }]
          nextBookId := store.nextBookId + 1 })

/-- `update_book_get` (`GET /admin-update-book`): admin-gated form page. -/
def update_book_get (msg : Option String) (current_user : UserModel) :
    Response :=
  if ¬ is_admin current_user then .redirect "/admin-error" 307
  else .template "admin-update-book.html" msg [] []

/-- `update_book_post` (`POST /admin-update-book`): locate the old book
case-insensitively, overwrite author/title/pages; no admin check. -/
def update_book_post (old_author old_title new_author new_title : String)
    (new_pages : Int) (store : Store) (current_user : UserModel) :
    Response × Store :=
  match store.books.find? (fun b =>
      pyLower b.author == pyLower (pyStrip old_author) &&
      pyLower b.title == pyLower (pyStrip old_title)) with
  | none =>
    (.template "admin-update-book.html" (some "Стара книга не знайдена")
      [] [], store)
  | some _ =>
    (.redirect "/admin" 303,
      { store with
          books := updateFirst (fun b =>
              pyLower b.author == pyLower (pyStrip old_author) &&
              pyLower b.title == pyLower (pyStrip old_title))
            (fun b =>
              { b with
                  author := pyStrip new_author
                  title := pyStrip new_title
                  pages := new_pages })
            store.books })

/-- `delete_book_get` (`GET /admin-delete-book`): admin-gated form page. -/
def delete_book_get (msg : Option String) (current_user : UserModel) :
    Response :=
  if ¬ is_admin current_user then .redirect "/admin-error" 307
  else .template "admin-delete-book.html" msg [] []

/-- `delete_book_post` (`POST /admin-delete-book`): locate the book
case-insensitively, delete it; no admin check. -/
def delete_book_post (author title : String) (store : Store)
    (current_user : UserModel) : Response × Store :=
  match store.books.find? (fun b =>
      pyLower b.author == pyLower (pyStrip author) &&
      pyLower b.title == pyLower (pyStrip title)) with
  | none =>
    (.template "admin-delete-book.html" (some "Книгу не знайдено") [] [],
      store)
  | some book =>
    (.redirect "/admin" 303,
      { store with books := store.books.filter (fun b => b.id ≠ book.id) })

/-- `user_delete_get` (`GET /admin-register-delete`): admin-gated user
list page. -/
def user_delete_get (msg : Option String) (store : Store)
    (current_user : UserModel) : Response :=
  if ¬ is_admin current_user then .redirect "/admin-error" 307
  else .template "admin-register-delete.html" msg [] store.users

/-- `user_delete_post` (`POST /admin-register-delete`): locate the user by
lower-cased username against the trimmed lower-cased form value, delete;
no admin check. -/
def user_delete_post (username : String) (store : Store)
    (current_user : UserModel) : Response × Store :=
  match store.users.find? (fun u =>
      pyLower u.username == pyLower (pyStrip username)) with
  | none =>
    (.template "admin-register-delete.html"
      (some ("Користувача " ++ username ++ " не знайдено")) [] store.users,
      store)
  | some user =>
    (.redirect "/admin-register-delete" 303,
      { store with users := store.users.filter (fun u => u.id ≠ user.id) })

/-! ## Store invariants -/

/-- The `username UNIQUE` column constraint: no two rows share a
username. -/
def usernamesUnique (users : List UserModel) : Prop :=
  users.Pairwise (fun a b => a.username ≠ b.username)

/-- The `id` primary-key constraint: no two rows share an id. -/
def idsUnique (users : List UserModel) : Prop :=
  users.Pairwise (fun a b => a.id ≠ b.id)

/-! ## Concrete fixtures used by witnesses and counterexamples -/

/-- A registered non-admin user. -/
def alice : UserModel :=
  { id := 1, author := some "alice", username := "alice",
    password := pwd_context_hash "pw", raw_password := some "pw",
    client_id := none, client_secret := none }

/-- A second registered non-admin user. -/
def bob : UserModel :=
  { id := 2, author := some "bob", username := "bob",
    password := pwd_context_hash "pw2", raw_password := some "pw2",
    client_id := none, client_secret := none }

/-- The privileged user: normalized username is the literal admin name. -/
def adminUser : UserModel :=
  { id := 3, author := some "admin", username := "admin",
    password := pwd_context_hash "pw3", raw_password := some "pw3",
    client_id := none, client_secret := none }

/-- A book row owned by alice. -/
def dune : BookModel :=
  { id := 1, title := "Dune", author := "alice", pages := 412 }

/-- The empty store. -/
def emptyStore : Store := { users := [], books := [] }

/-- A store with one user and one book. -/
def store1 : Store :=
  { users := [alice], books := [dune], nextUserId := 2, nextBookId := 2 }

/-- A store with two users and no books. -/
def store2 : Store :=
  { users := [alice, bob], books := [], nextUserId := 3, nextBookId := 1 }

/-! ## Helper predicates and lemmas -/

/-- Whether a response is an HTTP 404 not-found outcome. -/
def isNotFound404 : Response → Bool
  | .httpError 404 _ => true
  | _ => false

/-- Members of `updateFirst p f l` are members of `l` or images under `f`
of members of `l`. -/
theorem mem_updateFirst {α : Type} {p : α → Bool} {f : α → α} {l : List α}
    {y : α} (hy : y ∈ updateFirst p f l) :
    y ∈ l ∨ ∃ x, x ∈ l ∧ y = f x := by
  induction l with
  | nil => simp [updateFirst] at hy
  | cons x xs ih =>
    simp only [updateFirst] at hy
    by_cases hx : p x
    · rw [if_pos hx] at hy
      rcases List.mem_cons.mp hy with h | h
      · exact .inr ⟨x, List.mem_cons_self x xs, h⟩
      · exact .inl (List.mem_cons_of_mem x h)
    · rw [if_neg hx] at hy
      rcases List.mem_cons.mp hy with h | h
      · exact .inl (h ▸ List.mem_cons_self x xs)
      · rcases ih h with h' | ⟨z, hz, hzf⟩
        · exact .inl (List.mem_cons_of_mem x h')
        · exact .inr ⟨z, List.mem_cons_of_mem x hz, hzf⟩

/-- In a list pairwise-distinct under a key, two members with equal keys
are the same element. -/
theorem eq_of_pairwise_key {α β : Type} (key : α → β) {l : List α}
    (h : l.Pairwise (fun a b => key a ≠ key b)) {a b : α}
    (ha : a ∈ l) (hb : b ∈ l) (hk : key a = key b) : a = b := by
  induction l with
  | nil => simp at ha
  | cons x xs ih =>
    rcases List.pairwise_cons.mp h with ⟨hx, hxs⟩
    rcases List.mem_cons.mp ha with rfl | ha'
    · rcases List.mem_cons.mp hb with rfl | hb'
      · rfl
      · exact absurd hk (hx b hb')
    · rcases List.mem_cons.mp hb with rfl | hb'
      · exact absurd hk.symm (hx a ha')
      · exact ih hxs ha' hb'

/-! ## C10: login additionally requires the author field to match -/

/-- C10: `POST /token` additionally requires the submitted `author` form
field to equal the stored user's author label: for every registered user
and correct password, a login request whose author field differs from the
stored author is rejected with a redirect and sets no cookie (no token
issued), even though username lookup and password verification both
succeed. -/
theorem C10_login_requires_author_match
    (username password author : String) (store : Store) (now : Int)
    (user : UserModel)
    (hfind : store.users.find? (fun u => u.username == username) = some user)
    (hpw : pwd_context_verify password user.password = true)
    (hauthor : user.author ≠ some author) :
    login_for_access_token username password author store now =
      ⟨.redirect "/login?msg=Автор%20не%20співпадає" 303, none⟩ := by
  unfold login_for_access_token
  rw [hfind]
  simp [hpw, hauthor]

/-- Witness for C10 at a concrete store: alice with author label "alice"
logging in with correct password but author field "B". -/
theorem C10_login_requires_author_match_witness :
    login_for_access_token "alice" "pw" "B" store1 0 =
      ⟨.redirect "/login?msg=Автор%20не%20співпадає" 303, none⟩ :=
  C10_login_requires_author_match "alice" "pw" "B" store1 0 alice rfl rfl
    (by decide)

/-! ## C4: token time-to-live -/

/-- C4: a token issued at time `issue` with ttl `T` decodes successfully
(yielding the embedded subject and expiry) at every time strictly before
`issue + T`; at every time strictly after `issue + T` decoding fails and
the auth gate treats a request carrying the token as unauthenticated
(401), whatever the header and the store. -/
theorem C4_token_expiry (sub : String) (issue T v : Int) :
    (v < issue + T →
      jwt_decode (create_access_token sub issue T) SECRET_KEY v =
        .ok ⟨some sub, issue + T⟩) ∧
    (v > issue + T →
      jwt_decode (create_access_token sub issue T) SECRET_KEY v =
        .error "token expired" ∧
      ∀ (hdr : Option Jwt) (store : Store),
        get_current_user_from_cookie
          ⟨some (create_access_token sub issue T), hdr⟩ store v =
          .error 401) := by
  constructor
  · intro hv
    have hnot : ¬ (issue + T < v) := not_lt.mpr (le_of_lt hv)
    simp [create_access_token, jwt_encode, jwt_decode, hnot]
  · intro hv
    have hexp : issue + T < v := hv
    constructor
    · simp [create_access_token, jwt_encode, jwt_decode, hexp]
    · intro hdr store
      simp [get_current_user_from_cookie, create_access_token, jwt_encode,
        jwt_decode, hexp]

/-- Witness for C4: a token with the default 30-minute ttl issued at time
0 decodes at time 100 and is rejected by the gate at time 2000. -/
theorem C4_token_expiry_witness :
    jwt_decode (create_access_token "alice" 0 1800) SECRET_KEY 100 =
      .ok ⟨some "alice", 0 + 1800⟩ ∧
    get_current_user_from_cookie
      ⟨some (create_access_token "alice" 0 1800), none⟩ store1 2000 =
      .error 401 :=
  ⟨(C4_token_expiry "alice" 0 1800 100).1 (by norm_num),
   ((C4_token_expiry "alice" 0 1800 2000).2 (by norm_num)).2 none store1⟩

/-! ## C9: listing books by author -/

/-- C9 counterexample: with no books by author "x" in the store, the
`GET /books/{author}` route renders the page with an empty list; the
outcome is not a 404 error, contrary to the claim. -/
theorem C9_get_books_empty_not_404 :
    get_books_by_author "x" store1 =
      .template "books-author.html" none [] [] ∧
    isNotFound404 (get_books_by_author "x" store1) = false := by
  constructor <;> decide

/-- C9 (amended): `GET /books/{author}` renders the page with exactly the
books whose author equals the path parameter; when that list is empty the
page is still rendered with an empty list, and no 404 outcome is ever
produced. -/
theorem C9_get_books_by_author_amended (author : String) (store : Store) :
    ∃ books, get_books_by_author author store =
        .template "books-author.html" none books [] ∧
      (∀ b, b ∈ books ↔ b ∈ store.books ∧ b.author = author) ∧
      isNotFound404 (get_books_by_author author store) = false := by
  refine ⟨store.books.filter (fun b => b.author == author), rfl, ?_, rfl⟩
  intro b
  simp [List.mem_filter]

/-! ## C6: how the JSON API authenticates -/

/-- C6 counterexample: a request whose `Authorization` header is absent
but whose `access_token` cookie holds a valid token is authenticated, and
a request carrying a valid token only in the `Authorization` header is
rejected with 401 — identity is resolved from the cookie, not from the
bearer header, contrary to the claim. -/
theorem C6_auth_gate_ignores_bearer_header :
    get_current_user_from_cookie
      ⟨some (create_access_token "alice" 0), none⟩ store1 10 = .ok alice ∧
    get_current_user_from_cookie
      ⟨none, some (create_access_token "alice" 0)⟩ store1 10 =
      .error 401 := ⟨rfl, rfl⟩

/-- C6 (amended): for every JSON API request the auth gate resolves the
caller's identity from the `access_token` cookie; the `Authorization`
header is ignored (the outcome is invariant under changing it); when the
cookie is absent or its token does not decode, the request fails with a
401 authentication error (no redirect), and the API create endpoint
propagates the failure as an HTTP error leaving the store unchanged. -/
theorem C6_auth_gate_cookie_amended
    (cookie hdr hdr' : Option Jwt) (store : Store) (now : Int) :
    (get_current_user_from_cookie ⟨cookie, hdr⟩ store now =
      get_current_user_from_cookie ⟨cookie, hdr'⟩ store now) ∧
    (cookie = none →
      get_current_user_from_cookie ⟨cookie, hdr⟩ store now = .error 401) ∧
    (∀ tok e, cookie = some tok →
      jwt_decode tok SECRET_KEY now = .error e →
      get_current_user_from_cookie ⟨cookie, hdr⟩ store now = .error 401) ∧
    (∀ code author title pages,
      create_book (.error code) author title pages store =
        (.httpError code "Не авторизований", store)) := by
  refine ⟨rfl, ?_, ?_, ?_⟩
  · rintro rfl
    rfl
  · rintro tok e rfl hdec
    simp [get_current_user_from_cookie, hdec]
  · intro code author title pages
    rfl

/-- Witness for C6 (amended): a cookie-less request is a 401, and an
expired-cookie request is a 401. -/
theorem C6_auth_gate_cookie_amended_witness :
    get_current_user_from_cookie ⟨none, none⟩ store1 0 = .error 401 ∧
    get_current_user_from_cookie
      ⟨some (create_access_token "alice" 0), none⟩ store1 5000 =
      .error 401 :=
  ⟨(C6_auth_gate_cookie_amended none none none store1 0).2.1 rfl,
   (C6_auth_gate_cookie_amended (some (create_access_token "alice" 0)) none
      none store1 5000).2.2.1 (create_access_token "alice" 0)
     "token expired" rfl rfl⟩

/-! ## C1: admin gating -/

/-- C1 (evaluation at the failing input): bob is not the admin identity,
yet the `POST /admin-create-book` operation executes for bob, creates the
book, and redirects to the admin panel — the admin-only POST operations
perform no identity check. The admin GET pages do enforce the check, so
the code contradicts its own access model on the POST handlers. -/
theorem C1_admin_post_unguarded :
    is_admin bob = false ∧
    (create_book_post "T" "Auth" 100 store2 bob).2.books =
      [{ id := 1, title := "T", author := "Auth", pages := 100 }] ∧
    (create_book_post "T" "Auth" 100 store2 bob).1 =
      .redirect "/admin" 303 := by
  refine ⟨by decide, by decide, by decide⟩

/-! ## C2: register then login -/

/-- C2 counterexample: registering `("A", "alice", "pw")` into an empty
store and then immediately logging in with the same username and password
(author field "B") is rejected with the author-mismatch redirect and sets
no cookie — register-then-login with the same username and password alone
does not always succeed. -/
theorem C2_register_then_login_mismatch :
    login_for_access_token "alice" "pw" "B"
        (register_user "A" "alice" "pw" none none emptyStore).2 0 =
      ⟨.redirect "/login?msg=Автор%20не%20співпадає" 303, none⟩ := by
  decide

/-- C2 (amended): for every `(author, username, password)` such that no
user with that username exists, registration followed immediately by
login with the same username, password, and author form field succeeds:
the response is the menu redirect and the cookie holds a token whose
embedded subject equals the registered username. -/
theorem C2_register_then_login
    (a un pw : String) (ci cs : Option String) (store : Store) (now : Int)
    (hfresh : store.users.find? (fun u => u.username == un) = none) :
    ∃ tok, login_for_access_token un pw a
        (register_user a un pw ci cs store).2 now =
        ⟨.redirect ("/menu/" ++ a) 303, some tok⟩ ∧
      tok.payload.sub = some un := by
  refine ⟨create_access_token un now, ?_, rfl⟩
  unfold register_user
  rw [hfresh]
  unfold login_for_access_token
  simp [List.find?_append, hfresh, pwd_context_verify]

/-- Witness for C2 (amended) on the empty store. -/
theorem C2_register_then_login_witness :
    ∃ tok, login_for_access_token "alice" "pw" "A"
        (register_user "A" "alice" "pw" none none emptyStore).2 0 =
        ⟨.redirect ("/menu/" ++ "A") 303, some tok⟩ ∧
      tok.payload.sub = some "alice" :=
  C2_register_then_login "A" "alice" "pw" none none emptyStore 0 rfl

/-! ## C3: JSON API book creation rejections -/

/-- C3: on `POST /books/{author}`, a request with `pages ≤ 10` is always
rejected with an HTTP error and creates no row (whatever the auth
outcome: 401 when unauthenticated, 422 schema rejection otherwise); and a
request reaching the handler (authenticated, schema-valid) whose exact
`(title, author)` pair already exists is rejected with the 400 duplicate
error and creates no row. -/
theorem C3_create_book_rejections
    (auth : Except Nat UserModel) (author title : String) (pages : Int)
    (store : Store) :
    (pages ≤ 10 →
      (create_book auth author title pages store).2 = store ∧
      ∃ c d, (create_book auth author title pages store).1 =
        .httpError c d) ∧
    (∀ u dup, auth = .ok u →
      Book_valid author title pages = true →
      store.books.find? (fun b => b.title == title && b.author == author) =
        some dup →
      create_book auth author title pages store =
        (.httpError 400 "Книга вже існує", store)) := by
  constructor
  · intro hp
    have hd : (decide ((10 : Int) < pages)) = false :=
      decide_eq_false (not_lt.mpr hp)
    have hv : Book_valid author title pages = false := by
      unfold Book_valid
      rw [hd]
      simp
    cases auth with
    | error code => exact ⟨rfl, code, "Не авторизований", rfl⟩
    | ok u =>
      constructor
      · simp [create_book, hv]
      · exact ⟨422, "Unprocessable Entity", by simp [create_book, hv]⟩
  · rintro u dup rfl hvalid hdup
    simp [create_book, hvalid, hdup]

/-- Witness for C3: creating Dune with 5 pages leaves the store unchanged,
and re-creating the already-present Dune is the 400 duplicate error. -/
theorem C3_create_book_rejections_witness :
    (create_book (.ok alice) "alice" "Dune" 5 store1).2 = store1 ∧
    create_book (.ok alice) "alice" "Dune" 412 store1 =
      (.httpError 400 "Книга вже існує", store1) :=
  ⟨((C3_create_book_rejections (.ok alice) "alice" "Dune" 5 store1).1
      (by norm_num)).1,
   (C3_create_book_rejections (.ok alice) "alice" "Dune" 412 store1).2
     alice dune rfl (by decide) rfl⟩

/-! ## C8: the two update paths -/

/-- C8 counterexample: on the JSON API update path, updating the existing
book Dune to `pages = 5` is rejected by the `Book` schema validation with
the store unchanged — so pages validation IS enforced on (the API half
of) the update path, contrary to the claim. -/
theorem C8_api_update_validates_pages :
    update_book (.ok alice) "alice" "Dune" 5 store1 =
      (.httpError 422 "Unprocessable Entity", store1) := by
  decide

/-- C8 (amended): the HTML form update path locates the book by its old
title alone and overwrites title and pages with the submitted values, any
pages value included (no validation); the JSON API update path locates by
exact `(title, author)`, overwrites pages only, and enforces the same
`pages > 10` schema validation as create. -/
theorem C8_update_paths
    (author ot nt : String) (np : Int) (store : Store) (cu : UserModel)
    (book : BookModel)
    (hfound : store.books.find? (fun b => b.title == ot) = some book) :
    (update_book_form author ot nt np store cu =
      (.redirect ("/menu/" ++ author) 303,
        { store with
            books := updateFirst (fun b => b.title == ot)
              (fun b => { b with title := nt, pages := np })
              store.books })) ∧
    (∀ u t a pages, pages ≤ 10 →
      update_book (.ok u) a t pages store =
        (.httpError 422 "Unprocessable Entity", store)) ∧
    (∀ u t a pages b2, Book_valid a t pages = true →
      store.books.find? (fun b => b.title == t && b.author == a) =
        some b2 →
      update_book (.ok u) a t pages store =
        (.jsonMessage "Книгу оновлено",
          { store with
              books := updateFirst
                (fun b => b.title == t && b.author == a)
                (fun b => { b with pages := pages }) store.books })) := by
  refine ⟨?_, ?_, ?_⟩
  · unfold update_book_form
    rw [hfound]
  · intro u t a pages hp
    have hd : (decide ((10 : Int) < pages)) = false :=
      decide_eq_false (not_lt.mpr hp)
    have hv : Book_valid a t pages = false := by
      unfold Book_valid
      rw [hd]
      simp
    simp [update_book, hv]
  · intro u t a pages b2 hvalid hdup
    simp [update_book, hvalid, hdup]

/-- Witness for C8 (amended): the form path commits `pages = 5` on Dune
without validating, and the API path overwrites only the pages. -/
theorem C8_update_paths_witness :
    update_book_form "alice" "Dune" "Dune2" 5 store1 alice =
      (.redirect ("/menu/" ++ "alice") 303,
        { store1 with
            books := updateFirst (fun b => b.title == "Dune")
              (fun b => { b with title := "Dune2", pages := 5 })
              store1.books }) ∧
    update_book (.ok alice) "alice" "Dune" 500 store1 =
      (.jsonMessage "Книгу оновлено",
        { store1 with
            books := updateFirst
              (fun b => b.title == "Dune" && b.author == "alice")
              (fun b => { b with pages := 500 }) store1.books }) :=
  ⟨(C8_update_paths "alice" "Dune" "Dune2" 5 store1 alice dune rfl).1,
   (C8_update_paths "alice" "Dune" "Dune2" 5 store1 alice dune rfl).2.2
     alice "Dune" "alice" 500 dune (by decide) rfl⟩

/-! ## C7: deleting a missing row -/

/-- C7: every delete handler whose identifier matches no existing row
returns a not-found outcome and leaves the store exactly unchanged. For
the per-author book delete this is stated for requests passing the
ownership guard (`author` equal to the authenticated username); a request
failing the guard never reaches the delete and also leaves the store
unchanged (login redirect). The admin user delete, the path-parameter
account delete, and the self-service account delete need no guard. -/
theorem C7_delete_missing_not_found (store : Store) :
    (∀ author title cu, author = cu.username →
      store.books.find? (fun b =>
        pyLower b.author == pyLower author &&
        pyLower b.title == pyLower title) = none →
      delete_book_form author title store cu =
        (.template "delete-book.html" (some "Книгу не знайдено") [] [],
          store)) ∧
    (∀ author title cu, author ≠ cu.username →
      delete_book_form author title store cu =
        (.redirect "/login" 303, store)) ∧
    (∀ un cu, store.users.find? (fun u =>
        pyLower u.username == pyLower (pyStrip un)) = none →
      user_delete_post un store cu =
        (.template "admin-register-delete.html"
          (some ("Користувача " ++ un ++ " не знайдено")) [] store.users,
          store)) ∧
    (∀ a, store.users.find? (fun u => u.username == a) = none →
      delete_register_post a store =
        (.redirect ("/delete-register/" ++ a ++
          "?msg=Користувача не знайдено") 303, store)) ∧
    (∀ un pw, store.users.find? (fun u => u.username == un) = none →
      delete_user_form un pw store =
        (.redirect "/register-delete?msg=Акаунт%20не%20знайдено" 303,
          store)) := by
  refine ⟨?_, ?_, ?_, ?_, ?_⟩
  · intro author title cu hown hnone
    unfold delete_book_form
    rw [if_neg (by simp [hown]), hnone]
  · intro author title cu hown
    unfold delete_book_form
    rw [if_pos hown]
  · intro un cu hnone
    unfold user_delete_post
    rw [hnone]
  · intro a hnone
    unfold delete_register_post
    rw [hnone]
  · intro un pw hnone
    unfold delete_user_form
    rw [hnone]

/-- Witness for C7: deleting a book and users that do not exist in
`store1` returns the not-found outcomes with the store unchanged. -/
theorem C7_delete_missing_not_found_witness :
    delete_book_form "alice" "Zzz" store1 alice =
      (.template "delete-book.html" (some "Книгу не знайдено") [] [],
        store1) ∧
    user_delete_post "nobody" store1 alice =
      (.template "admin-register-delete.html"
        (some ("Користувача " ++ "nobody" ++ " не знайдено")) []
        store1.users, store1) ∧
    delete_register_post "nobody" store1 =
      (.redirect ("/delete-register/" ++ "nobody" ++
        "?msg=Користувача не знайдено") 303, store1) :=
  ⟨(C7_delete_missing_not_found store1).1 "alice" "Zzz" alice rfl
     (by decide),
   (C7_delete_missing_not_found store1).2.2.1 "nobody" alice (by decide),
   (C7_delete_missing_not_found store1).2.2.2.1 "nobody" (by decide)⟩

/-! ## C5: username uniqueness -/

/-- Updating the row with id `cid` to a username `nu` held by no row of a
different id preserves pairwise-distinct usernames (given distinct ids). -/
theorem updateFirst_usernames_unique {users : List UserModel} {cid : Nat}
    {f : UserModel → UserModel} {nu : String}
    (hf : ∀ u, (f u).username = nu)
    (huniq : usernamesUnique users) (hids : idsUnique users)
    (hno : ∀ u, u ∈ users → u.username = nu → u.id = cid) :
    usernamesUnique (updateFirst (fun u => u.id == cid) f users) := by
  induction users with
  | nil => exact List.Pairwise.nil
  | cons x xs ih =>
    rcases List.pairwise_cons.mp huniq with ⟨hxname, hxs⟩
    rcases List.pairwise_cons.mp hids with ⟨hxid, hids'⟩
    simp only [updateFirst]
    by_cases hpx : x.id == cid
    · rw [if_pos hpx]
      refine List.pairwise_cons.mpr ⟨?_, hxs⟩
      intro y hy hcontra
      have hyid : y.id = cid :=
        hno y (List.mem_cons_of_mem x hy) ((hf x) ▸ hcontra).symm
      exact hxid y hy ((eq_of_beq hpx).trans hyid.symm)
    · rw [if_neg hpx]
      refine List.pairwise_cons.mpr
        ⟨?_, ih hxs hids' (fun u hu => hno u (List.mem_cons_of_mem x hu))⟩
      intro y hy
      rcases mem_updateFirst hy with hy' | ⟨z, hz, rfl⟩
      · exact hxname y hy'
      · rw [hf z]
        intro hcontra
        have : x.id = cid := hno x (List.mem_cons_self x xs) hcontra
        exact hpx (by simp [this])

/-- The user rows of `delete_user_form` are a sublist of the input rows. -/
theorem delete_user_form_users_sublist (un pw : String) (store : Store) :
    (delete_user_form un pw store).2.users.Sublist store.users := by
  unfold delete_user_form
  cases h : store.users.find? (fun u => u.username == un) with
  | none => exact List.Sublist.refl _
  | some user =>
    by_cases hv : pwd_context_verify pw user.password
    · simp only [hv, not_true_eq_false, if_false]
      exact List.filter_sublist _
    · simp only [hv, not_false_eq_true, if_true]
      exact List.Sublist.refl _

/-- The user rows of `delete_register_post` are a sublist of the input
rows. -/
theorem delete_register_post_users_sublist (a : String) (store : Store) :
    (delete_register_post a store).2.users.Sublist store.users := by
  unfold delete_register_post
  cases h : store.users.find? (fun u => u.username == a) with
  | none => exact List.Sublist.refl _
  | some user => exact List.filter_sublist _

/-- The user rows of `user_delete_post` are a sublist of the input rows. -/
theorem user_delete_post_users_sublist (un : String) (store : Store)
    (cu : UserModel) :
    (user_delete_post un store cu).2.users.Sublist store.users := by
  unfold user_delete_post
  cases h : store.users.find? (fun u =>
      pyLower u.username == pyLower (pyStrip un)) with
  | none => exact List.Sublist.refl _
  | some user => exact List.filter_sublist _

/-- C5: when usernames are unique across all rows, every user-mutating
operation preserves the invariant — registration (which additionally is
always rejected, store unchanged, when the exact username already exists,
regardless of every other submitted field), each of the three delete
handlers, and the self-service rename (whose preservation also uses the
primary-key uniqueness of ids). -/
theorem C5_username_uniqueness (store : Store)
    (huniq : usernamesUnique store.users) :
    (∀ a un pw ci cs,
      usernamesUnique (register_user a un pw ci cs store).2.users ∧
      ((∃ u, u ∈ store.users ∧ u.username = un) →
        (register_user a un pw ci cs store).2 = store)) ∧
    (∀ un pw, usernamesUnique (delete_user_form un pw store).2.users) ∧
    (∀ a, usernamesUnique (delete_register_post a store).2.users) ∧
    (∀ un cu, usernamesUnique (user_delete_post un store cu).2.users) ∧
    (∀ nu np na cu now, idsUnique store.users →
      usernamesUnique
        (post_change_name nu np na store cu now).2.2.users) := by
  refine ⟨?_, ?_, ?_, ?_, ?_⟩
  · intro a un pw ci cs
    unfold register_user
    cases h : store.users.find? (fun u => u.username == un) with
    | some u => exact ⟨huniq, fun _ => rfl⟩
    | none =>
      constructor
      · refine List.pairwise_append.mpr ⟨huniq, List.pairwise_singleton _ _, ?_⟩
        intro u hu b hb
        have hne : ¬ (u.username == un) = true :=
          List.find?_eq_none.mp h u hu
        rcases List.mem_singleton.mp hb with rfl
        simpa using hne
      · rintro ⟨u, hu, hname⟩
        exact absurd (by simp [hname]) (List.find?_eq_none.mp h u hu)
  · intro un pw
    exact List.Pairwise.sublist (delete_user_form_users_sublist un pw store)
      huniq
  · intro a
    exact List.Pairwise.sublist (delete_register_post_users_sublist a store)
      huniq
  · intro un cu
    exact List.Pairwise.sublist (user_delete_post_users_sublist un store cu)
      huniq
  · intro nu np na cu now hids
    unfold post_change_name
    cases hid : store.users.find? (fun u => u.id == cu.id) with
    | none => exact huniq
    | some db_user =>
      dsimp only
      cases hname : store.users.find? (fun u => u.username == nu) with
      | none =>
        show usernamesUnique
          (post_change_name_commit nu np na store cu now).2.2.users
        unfold post_change_name_commit
        refine updateFirst_usernames_unique (fun u => rfl) huniq hids ?_
        intro u hu hun
        exact absurd (by simp [hun]) (List.find?_eq_none.mp hname u hu)
      | some e =>
        dsimp only
        by_cases hne : e.id ≠ cu.id
        · rw [if_pos hne]
          exact huniq
        · rw [if_neg hne]
          show usernamesUnique
            (post_change_name_commit nu np na store cu now).2.2.users
          unfold post_change_name_commit
          refine updateFirst_usernames_unique (fun u => rfl) huniq hids ?_
          intro u hu hun
          have hemem : e ∈ store.users := List.mem_of_find?_eq_some hname
          have hename : e.username = nu := by
            simpa using List.find?_some hname
          have hue : u = e :=
            eq_of_pairwise_key (fun u : UserModel => u.username) huniq hu
              hemem (by exact hun.trans hename.symm)
          rw [hue]
          exact not_not.mp hne

/-- Witness for C5: in the two-user store, re-registering the taken
username alice (with entirely different other fields) leaves the store
unchanged, and registering a fresh username preserves uniqueness. -/
theorem C5_username_uniqueness_witness :
    (register_user "X" "alice" "zzz" (some "ci") (some "cs") store2).2 =
      store2 ∧
    usernamesUnique
      (register_user "X" "carol" "zzz" none none store2).2.users := by
  have huniq2 : usernamesUnique store2.users := by
    refine List.pairwise_cons.mpr ⟨?_, List.pairwise_singleton _ _⟩
    intro b hb
    rcases List.mem_singleton.mp hb with rfl
    decide
  exact ⟨((C5_username_uniqueness store2 huniq2).1 "X" "alice" "zzz"
      (some "ci") (some "cs")).2
        ⟨alice, List.mem_cons_self alice [bob], rfl⟩,
    ((C5_username_uniqueness store2 huniq2).1 "X" "carol" "zzz"
      none none).1⟩

end BookLibrary
